import Mathlib

/-!
Verification development for the meta-tag translator script (src/trans2.py).

The script is shallowly embedded: Python runtime values produced by JSON
decoding are modelled by the inductive type `Py`, the behaviour of
`json.loads` by an executable recursive-descent parser `jsonLoads`, the
translator `translate_meta_tags` as a pure function of the (abstracted)
HTTP response, the controller loop of the Streamlit page as a fold over
the uploaded rows, and the Excel export as a cell grid.
-/

namespace MetaTag

/-- Python runtime values as they arise in the script: `json.loads`
results, `None`, strings and the cell values flowing through the rows.
`noneV` plays the role of Python `None` (and of JSON `null`, which
`json.loads` decodes to `None`). JSON floats are not modelled (no claim
involves numeric cell or reply values); a numeric literal with a decimal
point simply fails to parse in this model. -/
inductive Py where
  | noneV : Py
  | boolV : Bool → Py
  | intV : Int → Py
  | strV : String → Py
  | listV : List Py → Py
  | dictV : List (String × Py) → Py
  deriving Repr

/-- Python truthiness of a value, as used by `if ... and result['choices']:`. -/
def pyTruthy : Py → Bool
  | Py.noneV => false
  | Py.boolV b => b
  | Py.intV n => n != 0
  | Py.strV s => !s.isEmpty
  | Py.listV xs => !xs.isEmpty
  | Py.dictV kvs => !kvs.isEmpty

/-- Python `x is None` for a JSON-decoded value. -/
def pyIsNone : Py → Bool
  | Py.noneV => true
  | _ => false

/-- Python `==` between a JSON-decoded value and a string literal
(used by list membership in `'choices' in result`). -/
def pyEqStr : Py → String → Bool
  | Py.strV s, k => s == k
  | _, _ => false

/-- Lookup of a key in a decoded JSON object. Python's `dict` keeps the
last value bound to a duplicated key, so the rightmost binding wins. -/
def dictGet? (kvs : List (String × Py)) (k : String) : Option Py :=
  (kvs.reverse.find? (fun p => p.1 == k)).map (fun p => p.2)

/-- Python `dict.get(k, d)`: the stored value when the key is present
(even when that value is `None`), the default otherwise. -/
def dictGetD (kvs : List (String × Py)) (k : String) (d : Py) : Py :=
  (dictGet? kvs k).getD d

/-- Substring test, modelling Python `needle in s` on strings. Only ever
used with the nonempty needle "choices". -/
def strSubstr (needle s : String) : Bool :=
  (s.splitOn needle).length > 1

/-- Python `k in v` for a decoded JSON value `v`: key test on dicts,
membership on lists, substring test on strings; a `TypeError`
(modelled as `Except.error`) on the remaining types. -/
def pyInStr (k : String) : Py → Except Unit Bool
  | Py.dictV kvs => Except.ok (kvs.any (fun p => p.1 == k))
  | Py.listV xs => Except.ok (xs.any (fun x => pyEqStr x k))
  | Py.strV s => Except.ok (strSubstr k s)
  | _ => Except.error ()

/-- Python `v[k]` for a string key `k`: dict lookup; every other shape
raises (`KeyError` on a missing key, `TypeError` on lists, strings and
scalars indexed by a string), modelled as `none`. -/
def pyGetItemStr (v : Py) (k : String) : Option Py :=
  match v with
  | Py.dictV kvs => dictGet? kvs k
  | _ => none

/-- Python `v[0]`: first element of a list (`IndexError` on an empty
list), one-character string on a nonempty string; on dicts a `KeyError`
(JSON objects only carry string keys) and on scalars a `TypeError`,
all modelled as `none`. -/
def pyIndex0 : Py → Option Py
  | Py.listV (x :: _) => some x
  | Py.strV s =>
    match s.toList with
    | c :: _ => some (Py.strV (String.mk [c]))
    | [] => none
  | _ => none

/-- The double-quote character, written by code point to keep literals readable. -/
def quoteC : Char := Char.ofNat 34

/-- The opening-brace character of a JSON object. -/
def lcurlyC : Char := Char.ofNat 123

/-- The closing-brace character of a JSON object. -/
def rcurlyC : Char := Char.ofNat 125

/-- JSON insignificant whitespace. -/
def isWs (c : Char) : Bool := c = ' ' || c = '\t' || c = '\n' || c = '\r'

/-- Drop leading JSON whitespace. -/
def skipWs : List Char → List Char
  | [] => []
  | c :: cs => if isWs c then skipWs cs else c :: cs

/-- Decode one backslash escape of a JSON string literal
(the \\uXXXX form is not modelled; no claim depends on it). -/
def escChar (e : Char) : Option Char :=
  if e = quoteC then some quoteC
  else if e = '\\' then some '\\'
  else if e = '/' then some '/'
  else if e = 'n' then some '\n'
  else if e = 't' then some '\t'
  else if e = 'r' then some '\r'
  else if e = 'b' then some (Char.ofNat 8)
  else if e = 'f' then some (Char.ofNat 12)
  else none

/-- Parse the body of a JSON string literal after its opening quote,
returning the decoded characters and the rest of the input. -/
def parseStrChars : List Char → Option (List Char × List Char)
  | [] => none
  | c :: cs =>
    if c = quoteC then some ([], cs)
    else if c = '\\' then
      match cs with
      | [] => none
      | e :: cs' =>
        match escChar e with
        | none => none
        | some ch =>
          match parseStrChars cs' with
          | none => none
          | some (s, r) => some (ch :: s, r)
    else
      match parseStrChars cs with
      | none => none
      | some (s, r) => some (c :: s, r)

/-- Consume a run of decimal digits, accumulating their value. -/
def takeDigits (acc : Nat) : List Char → Nat × List Char
  | [] => (acc, [])
  | c :: cs => if c.isDigit then takeDigits (acc * 10 + (c.toNat - 48)) cs else (acc, c :: cs)

/-- Parse a JSON integer literal (floats are outside this model: a
trailing decimal point is left unconsumed and makes the surrounding
parse fail, where Python would produce a float). -/
def parseNum : List Char → Option (Py × List Char)
  | [] => none
  | c :: cs =>
    if c = '-' then
      match cs with
      | c2 :: _ =>
        if c2.isDigit then
          match takeDigits 0 cs with
          | (n, r) => some (Py.intV (-(n : Int)), r)
        else none
      | [] => none
    else if c.isDigit then
      match takeDigits 0 (c :: cs) with
      | (n, r) => some (Py.intV (n : Int), r)
    else none

mutual

/-- Recursive-descent parser for one JSON value, fuel-indexed. -/
def parseVal : Nat → List Char → Option (Py × List Char)
  | 0, _ => none
  | fuel + 1, cs =>
    match skipWs cs with
    | [] => none
    | c :: rest =>
      if c = quoteC then
        match parseStrChars rest with
        | none => none
        | some (s, r) => some (Py.strV (String.mk s), r)
      else if c = lcurlyC then
        match skipWs rest with
        | [] => none
        | c2 :: rest2 =>
          if c2 = rcurlyC then some (Py.dictV [], rest2)
          else
            match parseMembers fuel (c2 :: rest2) with
            | none => none
            | some (kvs, r) => some (Py.dictV kvs, r)
      else if c = '[' then
        match skipWs rest with
        | [] => none
        | c2 :: rest2 =>
          if c2 = ']' then some (Py.listV [], rest2)
          else
            match parseElems fuel (c2 :: rest2) with
            | none => none
            | some (xs, r) => some (Py.listV xs, r)
      else if c = 'n' then
        match rest with
        | 'u' :: 'l' :: 'l' :: r => some (Py.noneV, r)
        | _ => none
      else if c = 't' then
        match rest with
        | 'r' :: 'u' :: 'e' :: r => some (Py.boolV true, r)
        | _ => none
      else if c = 'f' then
        match rest with
        | 'a' :: 'l' :: 's' :: 'e' :: r => some (Py.boolV false, r)
        | _ => none
      else parseNum (c :: rest)

/-- Parse the comma-separated elements of a nonempty JSON array,
up to and including the closing bracket. -/
def parseElems : Nat → List Char → Option (List Py × List Char)
  | 0, _ => none
  | fuel + 1, cs =>
    match parseVal fuel cs with
    | none => none
    | some (v, r) =>
      match skipWs r with
      | [] => none
      | c :: r2 =>
        if c = ',' then
          match parseElems fuel r2 with
          | none => none
          | some (xs, r3) => some (v :: xs, r3)
        else if c = ']' then some ([v], r2)
        else none

/-- Parse the members of a nonempty JSON object, up to and including
the closing brace. -/
def parseMembers : Nat → List Char → Option (List (String × Py) × List Char)
  | 0, _ => none
  | fuel + 1, cs =>
    match skipWs cs with
    | [] => none
    | c :: rest =>
      if c = quoteC then
        match parseStrChars rest with
        | none => none
        | some (k, r) =>
          match skipWs r with
          | [] => none
          | c2 :: r2 =>
            if c2 = ':' then
              match parseVal fuel r2 with
              | none => none
              | some (v, r3) =>
                match skipWs r3 with
                | [] => none
                | c3 :: r4 =>
                  if c3 = ',' then
                    match parseMembers fuel r4 with
                    | none => none
                    | some (kvs, r5) => some ((String.mk k, v) :: kvs, r5)
                  else if c3 = rcurlyC then some ([(String.mk k, v)], r4)
                  else none
            else none
      else none

end

/-- Models Python `json.loads` on the JSON fragment the script
exercises (null, booleans, integers, strings with simple escapes,
arrays, objects); `none` models a `json.JSONDecodeError`. -/
def jsonLoads (s : String) : Option Py :=
  let cs := s.toList
  match parseVal (2 * cs.length + 4) cs with
  | none => none
  | some (v, r) => if (skipWs r).isEmpty then some v else none

/-- Outcome of the blocking HTTP POST of `translate_meta_tags`, as the
function can observe it: a `requests` transport or `raise_for_status`
error, a body that `response.json()` cannot decode, or a decoded JSON
body. -/
inductive HttpOutcome where
  | requestError : HttpOutcome
  | invalidBody : HttpOutcome
  | ok : Py → HttpOutcome

/-- Embedding of `translate_meta_tags(title, description, model, api_key)`
(src/trans2.py lines 37-88) as a function of the HTTP response. The
prompt, headers and request body only shape the outgoing request, which
is abstracted into `resp`; the returned pair is what the Python function
returns, with `Py.noneV` standing for `None`. Every raised exception
(`RequestException`, a `TypeError` inside the condition, `IndexError`
or `KeyError` while drilling into the envelope, `JSONDecodeError`, an
`AttributeError` when the decoded content has no `.get`) is caught by
one of the three handlers, all of which return `(None, None)`. -/
def translate_meta_tags (title description : Py) (model api_key : String)
    (resp : HttpOutcome) : Py × Py :=
  match resp with
  | HttpOutcome.requestError => (Py.noneV, Py.noneV)
  | HttpOutcome.invalidBody => (Py.noneV, Py.noneV)
  | HttpOutcome.ok result =>
    match pyInStr "choices" result with
    | Except.error _ => (Py.noneV, Py.noneV)
    | Except.ok false => (Py.noneV, Py.noneV)
    | Except.ok true =>
      match pyGetItemStr result "choices" with
      | none => (Py.noneV, Py.noneV)
      | some choicesV =>
        if pyTruthy choicesV then
          match pyIndex0 choicesV with
          | none => (Py.noneV, Py.noneV)
          | some first =>
            match pyGetItemStr first "message" with
            | none => (Py.noneV, Py.noneV)
            | some msg =>
              match pyGetItemStr msg "content" with
              | none => (Py.noneV, Py.noneV)
              | some content =>
                match content with
                | Py.strV s =>
                  match jsonLoads s with
                  | none => (Py.noneV, Py.noneV)
                  | some data =>
                    match data with
                    | Py.dictV kvs =>
                      (dictGetD kvs "title" (Py.strV ""),
                       dictGetD kvs "description" (Py.strV ""))
                    | _ => (Py.noneV, Py.noneV)
                | _ => (Py.noneV, Py.noneV)
        else (Py.noneV, Py.noneV)

/-- The message content `result['choices'][0]['message']['content']`
when the response carries a truthy 'choices' envelope and the whole
access chain succeeds, mirroring the code path of
`translate_meta_tags`. -/
def replyContent? : HttpOutcome → Option Py
  | HttpOutcome.requestError => none
  | HttpOutcome.invalidBody => none
  | HttpOutcome.ok result =>
    match pyInStr "choices" result with
    | Except.error _ => none
    | Except.ok false => none
    | Except.ok true =>
      match pyGetItemStr result "choices" with
      | none => none
      | some choicesV =>
        if pyTruthy choicesV then
          match pyIndex0 choicesV with
          | none => none
          | some first =>
            match pyGetItemStr first "message" with
            | none => none
            | some msg => pyGetItemStr msg "content"
        else none

/-- The decoded reply object on the fully successful path of
`translate_meta_tags`: the content exists, is a string, and
`json.loads` turns it into a dict. -/
def successData? (resp : HttpOutcome) : Option (List (String × Py)) :=
  match replyContent? resp with
  | some (Py.strV s) =>
    match jsonLoads s with
    | some (Py.dictV kvs) => some kvs
    | _ => none
  | _ => none

/-- Modelled from the spec's words (section 6): the reply content is
"parseable as the expected two-field structure" when it is a string
that decodes to a JSON object whose 'title' and 'description' fields
are both strings. -/
def specTwoField : Py → Bool
  | Py.strV s =>
    (match jsonLoads s with
    | some (Py.dictV kvs) =>
      (match dictGet? kvs "title" with
      | some (Py.strV _) => true
      | _ => false)
      && (match dictGet? kvs "description" with
      | some (Py.strV _) => true
      | _ => false)
    | _ => false)
  | _ => false

/-- Modelled from the spec's words (claim C1): the disjunction of the
three failure causes the spec lists for `translate_meta_tags` — the
HTTP call raises, the response lacks a non-empty 'choices' envelope,
or the reply content is not parseable as the expected two-field
structure. -/
def specFailureCond (resp : HttpOutcome) : Bool :=
  match replyContent? resp with
  | none => true
  | some content => !(specTwoField content)

/-- Checks that both components of the returned pair are strings. -/
def isStrPair : Py × Py → Bool
  | (Py.strV _, Py.strV _) => true
  | _ => false

/-- The fixed failure marker text written into both target fields of a
skipped row. -/
def failureMarker : String := "❌ Skipped (error)"

/-- One accumulated output row, with the four fields of the
`translated_row` dict of the controller loop. -/
structure TranslatedRow where
  titleEN : Py
  descEN : Py
  titleAR : Py
  descAR : Py

/-- The `translated_row` built for one input row (src/trans2.py lines
132-145): the failure marker pair when either returned component
`is None`, the returned pair otherwise. -/
def rowResult (titleEN descEN : Py) (tr : Py × Py) : TranslatedRow :=
  if pyIsNone tr.1 || pyIsNone tr.2 then
    { titleEN := titleEN, descEN := descEN,
      titleAR := Py.strV failureMarker, descAR := Py.strV failureMarker }
  else
    { titleEN := titleEN, descEN := descEN, titleAR := tr.1, descAR := tr.2 }

/-- Final state of one run of the controller loop: the accumulated
`output_data`, the `progress` counter, and the number of network calls
(invocations of `translate_meta_tags`) the loop performed. -/
structure LoopResult where
  output_data : List TranslatedRow
  progress : Nat
  calls : Nat

/-- Embedding of the controller loop (src/trans2.py lines 123-152).
`stopFlag i` is the value of `st.session_state.stop_translation`
observed at the top of iteration `i` (in a single rendering pass the
flag is constant, but session state is externally mutable, so it is
modelled as a schedule); `responses i` is the HTTP outcome of the call
made in iteration `i`. Rendering and the fixed sleep are omitted: they
do not touch the modelled state. -/
def controllerLoop (model api_key : String) (responses : Nat → HttpOutcome)
    (stopFlag : Nat → Bool) :
    List (Py × Py) → Nat → List TranslatedRow → Nat → Nat → LoopResult
  | [], _, out, prog, calls => ⟨out, prog, calls⟩
  | r :: rs, i, out, prog, calls =>
    if stopFlag i then ⟨out, prog, calls⟩
    else
      controllerLoop model api_key responses stopFlag rs (i + 1)
        (out ++ [rowResult r.1 r.2 (translate_meta_tags r.1 r.2 model api_key (responses i))])
        (prog + 1) (calls + 1)

/-- The rows the controller loop appends, built head-first; the bridge
lemma below identifies the loop's result with this list. -/
def procRows (model api_key : String) (responses : Nat → HttpOutcome)
    (stopFlag : Nat → Bool) : List (Py × Py) → Nat → List TranslatedRow
  | [], _ => []
  | r :: rs, i =>
    if stopFlag i then []
    else
      rowResult r.1 r.2 (translate_meta_tags r.1 r.2 model api_key (responses i))
        :: procRows model api_key responses stopFlag rs (i + 1)

/-- The per-session mutable state the script keeps in
`st.session_state` (src/trans2.py lines 93-96). -/
structure SessionState where
  stop_translation : Bool
  translation_started : Bool
  output_data : List TranslatedRow
  progress : Nat

/-- The uploaded spreadsheet after `pd.read_excel`: named columns and a
grid of cell values. -/
structure Uploaded where
  columns : List String
  rows : List (List Py)

/-- Cell access `row[c]` by column name (NaN for an absent cell is out
of scope: access is guarded by the column check). -/
def cellAt (columns : List String) (row : List Py) (c : String) : Py :=
  match columns.findIdx? (fun x => x == c) with
  | some i => row.getD i Py.noneV
  | none => Py.noneV

/-- The (title, description) pairs the loop reads from the uploaded
table (src/trans2.py lines 127-128). -/
def inputRows (u : Uploaded) : List (Py × Py) :=
  u.rows.map (fun row =>
    (cellAt u.columns row "Meta Title", cellAt u.columns row "Meta Description"))

/-- The dict literal built for one output row, with its keys in source
order (src/trans2.py lines 133-145). -/
def toRecord (r : TranslatedRow) : List (String × Py) :=
  [("Meta Title (EN)", r.titleEN), ("Meta Description (EN)", r.descEN),
   ("Meta Title (AR)", r.titleAR), ("Meta Description (AR)", r.descAR)]

/-- Deduplication keeping first occurrences, as pandas orders the
columns of a frame built from records. -/
def dedupAcc (seen : List String) : List String → List String
  | [] => []
  | x :: xs => if seen.contains x then dedupAcc seen xs else x :: dedupAcc (x :: seen) xs

/-- A pandas DataFrame, reduced to what the script observes: named
columns over a grid of cell values. -/
structure DataFrame where
  columns : List String
  rows : List (List Py)

/-- Models `pd.DataFrame(records)`: the columns are the record keys in
first-appearance order; each row lists the record's values in column
order. (pandas fills a missing key with NaN; modelled by `noneV`,
unreachable here because every record carries the same four keys.) -/
def dfFromRecords (recs : List (List (String × Py))) : DataFrame :=
  let cols := dedupAcc [] (recs.map (fun r => r.map (fun p => p.1))).flatten
  ⟨cols, recs.map (fun r => cols.map (fun c => dictGetD r c Py.noneV))⟩

/-- Embedding of `convert_df` (src/trans2.py lines 161-165): the byte
stream `df.to_excel(writer, index=False)` produces is modelled as the
written cell grid, a header row of the column names followed by the
data rows. -/
def convert_df (df : DataFrame) : List (List Py) :=
  (df.columns.map Py.strV) :: df.rows

/-- The DataFrame the exporter is applied to:
`pd.DataFrame(st.session_state.output_data)` (src/trans2.py line 156). -/
def exportDF (results : List TranslatedRow) : DataFrame :=
  dfFromRecords (results.map toRecord)

/-- Header cell back to a column name when the exported grid is parsed
again. -/
def headerStr : Py → String
  | Py.strV s => s
  | _ => ""

/-- Models parsing the exported byte stream back (`pd.read_excel` on
the written grid): the first row yields the column names, the remaining
rows the data. -/
def readTable : List (List Py) → DataFrame
  | [] => ⟨[], []⟩
  | header :: rest => ⟨header.map headerStr, rest⟩

/-- Result of one rendering pass over the page body: the new session
state, the number of network calls made, and the exported grid when the
run branch reached the download button. -/
structure StepResult where
  state : SessionState
  calls : Nat
  download? : Option (List (List Py))

/-- Embedding of the page body guarded by `if uploaded_file and
api_key:` (src/trans2.py lines 102-172). The column check of line 105
gates everything; the idle branch arms the run when the start button is
pressed (lines 110-115); the running branch executes the loop, forces
`translation_started` back to false (line 154) and builds the download
(lines 156-172). The stop button press and any later flag value are
folded into `stopFlag`; the stored `stop_translation` field is left as
it was, since the code writes it only on the start press (modelled) and
the button press (externalized into `stopFlag`). -/
def processFile (u : Uploaded) (s : SessionState) (startPressed : Bool)
    (model api_key : String) (responses : Nat → HttpOutcome)
    (stopFlag : Nat → Bool) : StepResult :=
  if !(u.columns.contains "Meta Title") || !(u.columns.contains "Meta Description") then
    ⟨s, 0, none⟩
  else if !s.translation_started then
    if startPressed then
      ⟨{ stop_translation := false, translation_started := true,
         output_data := [], progress := 0 }, 0, none⟩
    else ⟨s, 0, none⟩
  else
    let res := controllerLoop model api_key responses stopFlag (inputRows u) 0
      s.output_data s.progress 0
    ⟨{ stop_translation := s.stop_translation, translation_started := false,
       output_data := res.output_data, progress := res.progress },
     res.calls,
     some (convert_df (dfFromRecords (res.output_data.map toRecord)))⟩

/-- Default cell pair for positional access into the input rows. -/
def dummyCell : Py × Py := (Py.noneV, Py.noneV)

/-- Default output row for positional access into the results. -/
def dummyRow : TranslatedRow := ⟨Py.noneV, Py.noneV, Py.noneV, Py.noneV⟩

/-- The four output column names in source order. -/
def exportCols : List String :=
  ["Meta Title (EN)", "Meta Description (EN)", "Meta Title (AR)", "Meta Description (AR)"]

/-- A successful reply whose content decodes to two string fields. -/
def respGood : HttpOutcome :=
  HttpOutcome.ok (Py.dictV [("choices", Py.listV [Py.dictV [("message",
    Py.dictV [("content", Py.strV "\x7b\"title\": \"T\", \"description\": \"D\"\x7d")])]])])

/-- A well-formed reply whose content maps 'title' to JSON null: the
body decodes, the envelope is fine, the content is valid JSON, yet
`data.get("title", "")` returns `None` while the description is a
string. -/
def respHalf : HttpOutcome :=
  HttpOutcome.ok (Py.dictV [("choices", Py.listV [Py.dictV [("message",
    Py.dictV [("content", Py.strV "\x7b\"title\": null, \"description\": \"x\"\x7d")])]])])

theorem controllerLoop_eq_procRows (model api_key : String)
    (responses : Nat → HttpOutcome) (stopFlag : Nat → Bool) :
    ∀ (rows : List (Py × Py)) (i : Nat) (out : List TranslatedRow) (p c : Nat),
    controllerLoop model api_key responses stopFlag rows i out p c =
      ⟨out ++ procRows model api_key responses stopFlag rows i,
       p + (procRows model api_key responses stopFlag rows i).length,
       c + (procRows model api_key responses stopFlag rows i).length⟩ := by
  intro rows
  induction rows with
  | nil => intro i out p c; simp [controllerLoop, procRows]
  | cons r rs ih =>
    intro i out p c
    by_cases h : stopFlag i
    · simp [controllerLoop, procRows, h]
    · simp only [controllerLoop, procRows, h, if_neg, Bool.false_eq_true,
        ite_false, ih (i + 1), List.length_cons, LoopResult.mk.injEq]
      refine ⟨by simp, by omega, by omega⟩

theorem procRows_length_le (model api_key : String)
    (responses : Nat → HttpOutcome) (stopFlag : Nat → Bool) :
    ∀ (rows : List (Py × Py)) (i : Nat),
    (procRows model api_key responses stopFlag rows i).length ≤ rows.length := by
  intro rows
  induction rows with
  | nil => intro i; simp [procRows]
  | cons r rs ih =>
    intro i
    by_cases h : stopFlag i
    · simp [procRows, h]
    · simp only [procRows, h, Bool.false_eq_true, ite_false, List.length_cons]
      exact Nat.succ_le_succ (ih (i + 1))

theorem procRows_length_full (model api_key : String)
    (responses : Nat → HttpOutcome) (stopFlag : Nat → Bool) :
    ∀ (rows : List (Py × Py)) (i : Nat),
    (∀ j, j < rows.length → stopFlag (i + j) = false) →
    (procRows model api_key responses stopFlag rows i).length = rows.length := by
  intro rows
  induction rows with
  | nil => intro i _; simp [procRows]
  | cons r rs ih =>
    intro i h
    have h0 : stopFlag i = false := by have := h 0 (by simp); simpa using this
    simp only [procRows, h0, Bool.false_eq_true, ite_false, List.length_cons]
    have := ih (i + 1) (fun j hj => by
      have := h (j + 1) (by simpa using Nat.succ_lt_succ hj)
      simpa [Nat.add_assoc, Nat.add_comm 1 j] using this)
    omega

theorem procRows_length_stop_at (model api_key : String)
    (responses : Nat → HttpOutcome) (stopFlag : Nat → Bool) :
    ∀ (rows : List (Py × Py)) (i k : Nat),
    (∀ j, j < k → stopFlag (i + j) = false) → stopFlag (i + k) = true →
    k ≤ rows.length →
    (procRows model api_key responses stopFlag rows i).length = k := by
  intro rows
  induction rows with
  | nil =>
    intro i k _ _ hk
    have hk0 : k = 0 := by simpa using hk
    simp [procRows, hk0]
  | cons r rs ih =>
    intro i k hbefore hat hk
    cases k with
    | zero =>
      have h0 : stopFlag i = true := by simpa using hat
      simp [procRows, h0]
    | succ k' =>
      have h0 : stopFlag i = false := by have := hbefore 0 (by omega); simpa using this
      simp only [procRows, h0, Bool.false_eq_true, ite_false, List.length_cons]
      have := ih (i + 1) k'
        (fun j hj => by
          have := hbefore (j + 1) (by omega)
          simpa [Nat.add_assoc, Nat.add_comm 1 j] using this)
        (by simpa [Nat.add_assoc, Nat.add_comm 1 k'] using hat)
        (by simpa using Nat.le_of_succ_le_succ hk)
      omega

theorem procRows_length_le_of_stop (model api_key : String)
    (responses : Nat → HttpOutcome) (stopFlag : Nat → Bool) (k : Nat)
    (hmono : ∀ i j, i ≤ j → stopFlag i = true → stopFlag j = true)
    (hk : stopFlag k = true) :
    ∀ (rows : List (Py × Py)) (i : Nat),
    (procRows model api_key responses stopFlag rows i).length ≤ k - i := by
  intro rows
  induction rows with
  | nil => intro i; simp [procRows]
  | cons r rs ih =>
    intro i
    by_cases h : stopFlag i
    · simp [procRows, h]
    · have hik : i < k := by
        by_contra hle
        have : stopFlag i = true := hmono k i (by omega) hk
        simp [this] at h
      simp only [procRows, h, Bool.false_eq_true, ite_false, List.length_cons]
      have := ih (i + 1)
      omega

theorem procRows_getD (model api_key : String)
    (responses : Nat → HttpOutcome) (stopFlag : Nat → Bool) :
    ∀ (rows : List (Py × Py)) (i j : Nat),
    j < (procRows model api_key responses stopFlag rows i).length →
    (procRows model api_key responses stopFlag rows i).getD j dummyRow =
      rowResult (rows.getD j dummyCell).1 (rows.getD j dummyCell).2
        (translate_meta_tags (rows.getD j dummyCell).1 (rows.getD j dummyCell).2
          model api_key (responses (i + j))) := by
  intro rows
  induction rows with
  | nil => intro i j hj; simp [procRows] at hj
  | cons r rs ih =>
    intro i j hj
    by_cases h : stopFlag i
    · simp [procRows, h] at hj
    · simp only [procRows, h, Bool.false_eq_true, ite_false, List.length_cons] at hj
      cases j with
      | zero => simp [procRows, h]
      | succ j' =>
        simp only [procRows, h, Bool.false_eq_true, ite_false, List.getD_cons_succ]
        have := ih (i + 1) j' (by omega)
        simpa [Nat.add_assoc, Nat.add_comm 1 j'] using this

theorem dedupAcc_eq_nil (seen : List String) :
    ∀ l, (∀ x ∈ l, seen.contains x = true) → dedupAcc seen l = [] := by
  intro l
  induction l with
  | nil => intro _; rfl
  | cons x xs ih =>
    intro h
    have hx : seen.contains x = true := h x (by simp)
    simp only [dedupAcc, hx, ite_true]
    exact ih (fun y hy => h y (by simp [hy]))

theorem keys_toRecord (r : TranslatedRow) :
    (toRecord r).map (fun p => p.1) = exportCols := rfl

theorem exportDF_columns (results : List TranslatedRow) (h : results ≠ []) :
    (exportDF results).columns = exportCols := by
  obtain ⟨r, rest, rfl⟩ := List.exists_cons_of_ne_nil h
  show dedupAcc [] (((((r :: rest).map toRecord)).map (fun rec => rec.map (fun p => p.1))).flatten) = exportCols
  simp only [List.map_cons, keys_toRecord, List.flatten_cons]
  have htail : ∀ x ∈ ((rest.map toRecord).map (fun rec => rec.map (fun p => p.1))).flatten,
      x ∈ exportCols := by
    intro x hx
    rw [List.mem_flatten] at hx
    obtain ⟨l, hl, hxl⟩ := hx
    rw [List.mem_map] at hl
    obtain ⟨rec, hrec, rfl⟩ := hl
    rw [List.mem_map] at hrec
    obtain ⟨row, _, rfl⟩ := hrec
    rw [keys_toRecord] at hxl
    exact hxl
  show dedupAcc [] (exportCols ++ _) = exportCols
  simp only [exportCols, List.cons_append, List.nil_append]
  rw [dedupAcc, if_neg (by decide), dedupAcc, if_neg (by decide),
    dedupAcc, if_neg (by decide), dedupAcc, if_neg (by decide)]
  rw [dedupAcc_eq_nil _ _ (fun x hx => by
    have hmem := htail x hx
    simp only [exportCols, List.mem_cons, List.not_mem_nil, or_false] at hmem
    rcases hmem with rfl | rfl | rfl | rfl <;> decide)]

theorem record_values (r : TranslatedRow) :
    exportCols.map (fun c => dictGetD (toRecord r) c Py.noneV) =
      [r.titleEN, r.descEN, r.titleAR, r.descAR] := rfl

theorem exportDF_rows (results : List TranslatedRow) (h : results ≠ []) :
    (exportDF results).rows =
      results.map (fun r => [r.titleEN, r.descEN, r.titleAR, r.descAR]) := by
  have hcols := exportDF_columns results h
  show (results.map toRecord).map
      (fun rec => (exportDF results).columns.map (fun c => dictGetD rec c Py.noneV)) =
    results.map (fun r => [r.titleEN, r.descEN, r.titleAR, r.descAR])
  rw [hcols, List.map_map]
  exact List.map_congr_left (fun r _ => record_values r)

theorem getD_map_of_lt {α β : Type} (f : α → β) (d : β) (d' : α) :
    ∀ (l : List α) (i : Nat), i < l.length → (l.map f).getD i d = f (l.getD i d') := by
  intro l
  induction l with
  | nil => intro i hi; simp at hi
  | cons x xs ih =>
    intro i hi
    cases i with
    | zero => rfl
    | succ j => exact ih j (by simpa using hi)

theorem map_headerStr_strV (l : List String) : (l.map Py.strV).map headerStr = l := by
  induction l with
  | nil => rfl
  | cons x xs ih => simp only [List.map_cons, headerStr, ih]

theorem readTable_convert (df : DataFrame) : readTable (convert_df df) = df := by
  cases df with
  | mk cols rows => simp only [convert_df, readTable, map_headerStr_strV]

theorem loop_out_getD (model api_key : String) (responses : Nat → HttpOutcome)
    (stopFlag : Nat → Bool) (rows : List (Py × Py)) (i : Nat)
    (hi : i < ((controllerLoop model api_key responses stopFlag rows 0 [] 0 0).output_data).length) :
    ((controllerLoop model api_key responses stopFlag rows 0 [] 0 0).output_data).getD i dummyRow =
      rowResult (rows.getD i dummyCell).1 (rows.getD i dummyCell).2
        (translate_meta_tags (rows.getD i dummyCell).1 (rows.getD i dummyCell).2
          model api_key (responses i)) := by
  rw [controllerLoop_eq_procRows] at hi ⊢
  simp only [List.nil_append] at hi ⊢
  simpa using procRows_getD model api_key responses stopFlag rows 0 i (by simpa using hi)

theorem exportDF_rows_getD (out : List TranslatedRow) (i : Nat) (hi : i < out.length) :
    (exportDF out).rows.getD i [] =
      [(out.getD i dummyRow).titleEN, (out.getD i dummyRow).descEN,
       (out.getD i dummyRow).titleAR, (out.getD i dummyRow).descAR] := by
  have hne : out ≠ [] := List.ne_nil_of_length_pos (by omega)
  rw [exportDF_rows out hne]
  exact getD_map_of_lt _ _ dummyRow out i hi

/-- C1 counterexample. At a response whose reply content is the valid
JSON text mapping 'title' to null and 'description' to "x", the spec's
failure condition holds (the content is not parseable as the expected
two-field structure, its title field not being a string), yet
`translate_meta_tags` returns the pair (None, "x"): not the sentinel
pair, and not a pair of strings either. So the claimed equivalence
"returns (None, None) exactly when ..." fails, and with it "in every
other case it returns a pair of strings". -/
theorem C1_counterexample :
    ¬ ((translate_meta_tags (Py.strV "t") (Py.strV "d") "m" "k" respHalf =
          (Py.noneV, Py.noneV) ↔ specFailureCond respHalf = true)
      ∧ (specFailureCond respHalf = false →
          isStrPair (translate_meta_tags (Py.strV "t") (Py.strV "d") "m" "k" respHalf) = true)) := by
  intro h
  have hc : specFailureCond respHalf = true := rfl
  have hret : translate_meta_tags (Py.strV "t") (Py.strV "d") "m" "k" respHalf =
      (Py.noneV, Py.strV "x") := rfl
  have hs := h.1.mpr hc
  rw [hret] at hs
  exact Py.noConfusion (congrArg Prod.snd hs)

/-- C1 (amended). For every title, description, model id, credential
and HTTP outcome, `translate_meta_tags` never raises and returns: when
the call succeeds, the envelope carries a truthy 'choices', the content
chain resolves to a string and that string JSON-decodes to an object
`data`, the pair (data.get('title', ''), data.get('description', ''));
in every other case the sentinel pair (None, None). The components of
the successful pair are the stored field values, which need not be
strings: a field bound to JSON null comes back as None, so half-None
(and, for two null fields, fully-None) pairs also arise on the
successful path. -/
theorem C1_translate_return (title description : Py) (model api_key : String)
    (resp : HttpOutcome) :
    translate_meta_tags title description model api_key resp =
      (match successData? resp with
      | some kvs => (dictGetD kvs "title" (Py.strV ""),
          dictGetD kvs "description" (Py.strV ""))
      | none => (Py.noneV, Py.noneV)) := by
  cases resp with
  | requestError => rfl
  | invalidBody => rfl
  | ok result =>
    simp only [translate_meta_tags, successData?, replyContent?]
    repeat' split <;> try rfl
    all_goals simp_all

theorem contains_eq_false_of_not_mem {l : List String} {a : String} (h : a ∉ l) :
    l.contains a = false :=
  Bool.eq_false_iff.mpr (fun hc => h (List.elem_iff.mp hc))

/-- C2. For every uploaded table missing the 'Meta Title' column or the
'Meta Description' column, processing never starts: the rendering pass
leaves the session state untouched, makes zero network calls, appends
no result row and offers no download, whatever the buttons, model,
credential, response schedule and stop schedule are. -/
theorem C2_missing_column_no_processing (u : Uploaded) (s : SessionState)
    (startPressed : Bool) (model api_key : String) (responses : Nat → HttpOutcome)
    (stopFlag : Nat → Bool)
    (h : "Meta Title" ∉ u.columns ∨ "Meta Description" ∉ u.columns) :
    processFile u s startPressed model api_key responses stopFlag = ⟨s, 0, none⟩ := by
  rcases h with h | h <;> simp [processFile, h]

/-- C7. Pressing start from the idle state yields exactly the armed
state: started true, stop flag cleared, results emptied, progress 0 —
independently of whatever results, progress or stop flag the previous
run left in the session state, so nothing carries over into the new
run. -/
theorem C7_start_transition (u : Uploaded) (s : SessionState)
    (model api_key : String) (responses : Nat → HttpOutcome) (stopFlag : Nat → Bool)
    (hc1 : "Meta Title" ∈ u.columns) (hc2 : "Meta Description" ∈ u.columns)
    (hidle : s.translation_started = false) :
    processFile u s true model api_key responses stopFlag =
      ⟨⟨false, true, [], 0⟩, 0, none⟩ := by
  simp [processFile, List.elem_iff.mpr hc1, List.elem_iff.mpr hc2, hidle]
  rintro (hh | hh)
  · exact absurd hc1 hh
  · exact absurd hc2 hh

theorem processFile_run (u : Uploaded) (s : SessionState) (startPressed : Bool)
    (model api_key : String) (responses : Nat → HttpOutcome) (stopFlag : Nat → Bool)
    (hc1 : "Meta Title" ∈ u.columns) (hc2 : "Meta Description" ∈ u.columns)
    (hs : s.translation_started = true) :
    processFile u s startPressed model api_key responses stopFlag =
      ⟨{ stop_translation := s.stop_translation, translation_started := false,
         output_data := s.output_data ++
           procRows model api_key responses stopFlag (inputRows u) 0,
         progress := s.progress +
           (procRows model api_key responses stopFlag (inputRows u) 0).length },
       (procRows model api_key responses stopFlag (inputRows u) 0).length,
       some (convert_df (dfFromRecords
         ((s.output_data ++
           procRows model api_key responses stopFlag (inputRows u) 0).map toRecord)))⟩ := by
  simp [processFile, List.elem_iff.mpr hc1, List.elem_iff.mpr hc2, hs,
    controllerLoop_eq_procRows]
  exact ⟨hc1, hc2⟩

/-- C6. During the running pass the stop flag is read at the top of
each iteration before any work: when the (monotone) stop schedule is
set from index k on, the pass performs at most k network calls and
appends at most k rows — in particular none for the iteration that
observes the flag or any later one; and however the loop exits,
`translation_started` is forced back to false. -/
theorem C6_stop_flag_and_reset (u : Uploaded) (s : SessionState) (startPressed : Bool)
    (model api_key : String) (responses : Nat → HttpOutcome) (stopFlag : Nat → Bool)
    (hc1 : "Meta Title" ∈ u.columns) (hc2 : "Meta Description" ∈ u.columns)
    (hs : s.translation_started = true) :
    (processFile u s startPressed model api_key responses stopFlag).state.translation_started
        = false
    ∧ (∀ k, (∀ i j, i ≤ j → stopFlag i = true → stopFlag j = true) → stopFlag k = true →
        (processFile u s startPressed model api_key responses stopFlag).calls ≤ k
        ∧ (processFile u s startPressed model api_key responses stopFlag).state.output_data.length
            ≤ s.output_data.length + k) := by
  rw [processFile_run u s startPressed model api_key responses stopFlag hc1 hc2 hs]
  refine ⟨rfl, fun k hmono hk => ?_⟩
  have hlen := procRows_length_le_of_stop model api_key responses stopFlag k hmono hk
    (inputRows u) 0
  refine ⟨?_, ?_⟩
  · simpa using Nat.le_trans hlen (by omega)
  · simp only [List.length_append]
    omega

/-- C3. For every input row whose translation comes back with neither
component None, the TranslatedRow appended at that row's position keeps
the source fields verbatim and carries exactly the returned pair as
target fields — and the exported spreadsheet row for that position is
exactly those four values. -/
theorem C3_success_row (model api_key : String) (responses : Nat → HttpOutcome)
    (stopFlag : Nat → Bool) (rows : List (Py × Py)) (i : Nat)
    (hi : i < ((controllerLoop model api_key responses stopFlag rows 0 [] 0 0).output_data).length)
    (ht : pyIsNone (translate_meta_tags (rows.getD i dummyCell).1 (rows.getD i dummyCell).2
        model api_key (responses i)).1 = false)
    (hd : pyIsNone (translate_meta_tags (rows.getD i dummyCell).1 (rows.getD i dummyCell).2
        model api_key (responses i)).2 = false) :
    ((controllerLoop model api_key responses stopFlag rows 0 [] 0 0).output_data).getD i dummyRow =
      ⟨(rows.getD i dummyCell).1, (rows.getD i dummyCell).2,
        (translate_meta_tags (rows.getD i dummyCell).1 (rows.getD i dummyCell).2
          model api_key (responses i)).1,
        (translate_meta_tags (rows.getD i dummyCell).1 (rows.getD i dummyCell).2
          model api_key (responses i)).2⟩
    ∧ (exportDF ((controllerLoop model api_key responses stopFlag rows 0 [] 0 0).output_data)).rows.getD i [] =
      [(rows.getD i dummyCell).1, (rows.getD i dummyCell).2,
        (translate_meta_tags (rows.getD i dummyCell).1 (rows.getD i dummyCell).2
          model api_key (responses i)).1,
        (translate_meta_tags (rows.getD i dummyCell).1 (rows.getD i dummyCell).2
          model api_key (responses i)).2] := by
  have h1 := loop_out_getD model api_key responses stopFlag rows i hi
  have heq : ((controllerLoop model api_key responses stopFlag rows 0 [] 0 0).output_data).getD i dummyRow =
      ⟨(rows.getD i dummyCell).1, (rows.getD i dummyCell).2,
        (translate_meta_tags (rows.getD i dummyCell).1 (rows.getD i dummyCell).2
          model api_key (responses i)).1,
        (translate_meta_tags (rows.getD i dummyCell).1 (rows.getD i dummyCell).2
          model api_key (responses i)).2⟩ := by
    rw [h1]
    simp only [rowResult, ht, hd, Bool.or_self, Bool.false_eq_true, if_false]
  refine ⟨heq, ?_⟩
  rw [exportDF_rows_getD _ i hi, heq]

/-- C4. For every input row whose translation comes back as the
sentinel pair (None, None), the TranslatedRow appended at that row's
position keeps the source fields verbatim and has both target fields
equal to the fixed failure marker — and so does the exported
spreadsheet row. -/
theorem C4_failure_row (model api_key : String) (responses : Nat → HttpOutcome)
    (stopFlag : Nat → Bool) (rows : List (Py × Py)) (i : Nat)
    (hi : i < ((controllerLoop model api_key responses stopFlag rows 0 [] 0 0).output_data).length)
    (ht : translate_meta_tags (rows.getD i dummyCell).1 (rows.getD i dummyCell).2
        model api_key (responses i) = (Py.noneV, Py.noneV)) :
    ((controllerLoop model api_key responses stopFlag rows 0 [] 0 0).output_data).getD i dummyRow =
      ⟨(rows.getD i dummyCell).1, (rows.getD i dummyCell).2,
        Py.strV failureMarker, Py.strV failureMarker⟩
    ∧ (exportDF ((controllerLoop model api_key responses stopFlag rows 0 [] 0 0).output_data)).rows.getD i [] =
      [(rows.getD i dummyCell).1, (rows.getD i dummyCell).2,
        Py.strV failureMarker, Py.strV failureMarker] := by
  have h1 := loop_out_getD model api_key responses stopFlag rows i hi
  have heq : ((controllerLoop model api_key responses stopFlag rows 0 [] 0 0).output_data).getD i dummyRow =
      ⟨(rows.getD i dummyCell).1, (rows.getD i dummyCell).2,
        Py.strV failureMarker, Py.strV failureMarker⟩ := by
    rw [h1, ht]
    simp [rowResult, pyIsNone]
  refine ⟨heq, ?_⟩
  rw [exportDF_rows_getD _ i hi, heq]

/-- C10. A half-missing translation is recorded as a full row failure:
whenever the returned pair has exactly one None component, the appended
row carries the failure marker in both target fields, discarding the
successfully translated component; and such pairs do occur — for every
title, description, model and credential, a reply whose content maps
'title' to null makes `translate_meta_tags` return (None, "x"). -/
theorem C10_half_none_full_failure (model api_key : String) (responses : Nat → HttpOutcome)
    (stopFlag : Nat → Bool) (rows : List (Py × Py)) (i : Nat)
    (hi : i < ((controllerLoop model api_key responses stopFlag rows 0 [] 0 0).output_data).length)
    (hx : pyIsNone (translate_meta_tags (rows.getD i dummyCell).1 (rows.getD i dummyCell).2
          model api_key (responses i)).1
        ≠ pyIsNone (translate_meta_tags (rows.getD i dummyCell).1 (rows.getD i dummyCell).2
          model api_key (responses i)).2) :
    ((controllerLoop model api_key responses stopFlag rows 0 [] 0 0).output_data).getD i dummyRow =
      ⟨(rows.getD i dummyCell).1, (rows.getD i dummyCell).2,
        Py.strV failureMarker, Py.strV failureMarker⟩
    ∧ ∀ (t d : Py) (m k : String),
        translate_meta_tags t d m k respHalf = (Py.noneV, Py.strV "x") := by
  have h1 := loop_out_getD model api_key responses stopFlag rows i hi
  refine ⟨?_, fun t d m k => rfl⟩
  rw [h1]
  rcases hb1 : pyIsNone (translate_meta_tags (rows.getD i dummyCell).1 (rows.getD i dummyCell).2
      model api_key (responses i)).1 <;>
    rcases hb2 : pyIsNone (translate_meta_tags (rows.getD i dummyCell).1 (rows.getD i dummyCell).2
      model api_key (responses i)).2 <;>
    simp_all [rowResult]

/-- C5. From the armed (cleared) state: after every prefix of the run
(the loop over the first j rows, which is the state after iteration j
completes) the accumulated results count equals progress and progress
is at most the total row count; a run whose stop schedule never fires
within the table ends with progress equal to total_rows; and a run
whose stop schedule first fires at iteration k (k within the table)
ends with progress exactly k, the number of rows processed before the
flag was observed. -/
theorem C5_progress_invariant (model api_key : String) (responses : Nat → HttpOutcome)
    (stopFlag : Nat → Bool) (rows : List (Py × Py)) :
    (∀ j, ((controllerLoop model api_key responses stopFlag (rows.take j) 0 [] 0 0).output_data).length =
        (controllerLoop model api_key responses stopFlag (rows.take j) 0 [] 0 0).progress
      ∧ (controllerLoop model api_key responses stopFlag (rows.take j) 0 [] 0 0).progress ≤ rows.length)
    ∧ ((∀ i, i < rows.length → stopFlag i = false) →
        (controllerLoop model api_key responses stopFlag rows 0 [] 0 0).progress = rows.length)
    ∧ (∀ k, k ≤ rows.length → (∀ i, i < k → stopFlag i = false) → stopFlag k = true →
        (controllerLoop model api_key responses stopFlag rows 0 [] 0 0).progress = k) := by
  refine ⟨fun j => ?_, fun hno => ?_, fun k hk hbefore hat => ?_⟩
  · rw [controllerLoop_eq_procRows]
    refine ⟨by simp, ?_⟩
    have h1 := procRows_length_le model api_key responses stopFlag (rows.take j) 0
    have h2 : (rows.take j).length ≤ rows.length := by
      simp [List.length_take]
    simp only [Nat.zero_add]
    omega
  · rw [controllerLoop_eq_procRows]
    have h := procRows_length_full model api_key responses stopFlag rows 0
      (fun j hj => by simpa using hno j hj)
    simp [h]
  · rw [controllerLoop_eq_procRows]
    have h := procRows_length_stop_at model api_key responses stopFlag rows 0 k
      (fun j hj => by simpa using hbefore j hj) (by simpa using hat) hk
    simp [h]

/-- C8 counterexample. The claim fails on the empty accumulated results
sequence, which a run over a table carrying both required columns but
zero data rows produces: the frame built from no records has no columns
at all, so the exported spreadsheet does not have exactly four
columns. -/
theorem C8_counterexample : ¬ ((exportDF []).columns.length = 4) := by decide

/-- C8 (amended). For every nonempty accumulated results sequence the
exported spreadsheet has exactly the four source/target columns and
exactly one row per TranslatedRow, in insertion order with each row's
four field values in column order (the export being, by construction, a
function of the results sequence alone); the empty results sequence
instead exports a spreadsheet with no columns and no rows. -/
theorem C8_export_shape (results : List TranslatedRow) :
    (results ≠ [] →
      (exportDF results).columns = exportCols
      ∧ (exportDF results).rows =
          results.map (fun r => [r.titleEN, r.descEN, r.titleAR, r.descAR]))
    ∧ (exportDF []).columns = [] ∧ (exportDF []).rows = ([] : List (List Py)) :=
  ⟨fun h => ⟨exportDF_columns results h, exportDF_rows results h⟩, rfl, rfl⟩

/-- C9. Serializing a fixed results sequence to the exported byte
stream and parsing that stream back reproduces the table exactly: the
same columns (the four named ones whenever any row exists), the same
rows, and the same row order as the original results sequence. -/
theorem C9_round_trip (results : List TranslatedRow) :
    readTable (convert_df (exportDF results)) = exportDF results
    ∧ (results ≠ [] →
        (exportDF results).columns = exportCols
        ∧ (exportDF results).rows =
          results.map (fun r => [r.titleEN, r.descEN, r.titleAR, r.descAR])) :=
  ⟨readTable_convert (exportDF results),
   fun h => ⟨exportDF_columns results h, exportDF_rows results h⟩⟩

/-- C2 witness: a table carrying only 'Meta Title' is rejected without
any state change, call or download. -/
theorem C2_missing_column_no_processing_witness :
    processFile ⟨["Meta Title"], []⟩ ⟨false, false, [], 0⟩ false "m" "k"
      (fun _ => HttpOutcome.requestError) (fun _ => false) =
      ⟨⟨false, false, [], 0⟩, 0, none⟩ :=
  C2_missing_column_no_processing _ _ _ _ _ _ _ (Or.inr (by decide))

/-- C3 witness: one row translated through a good reply is recorded and
exported with exactly the returned Arabic pair. -/
theorem C3_success_row_witness :
    ((controllerLoop "m" "k" (fun _ => respGood) (fun _ => false)
        [(Py.strV "Red Shoes", Py.strV "Comfortable running shoes")]
        0 [] 0 0).output_data).getD 0 dummyRow =
      ⟨Py.strV "Red Shoes", Py.strV "Comfortable running shoes", Py.strV "T", Py.strV "D"⟩
    ∧ (exportDF ((controllerLoop "m" "k" (fun _ => respGood) (fun _ => false)
        [(Py.strV "Red Shoes", Py.strV "Comfortable running shoes")]
        0 [] 0 0).output_data)).rows.getD 0 [] =
      [Py.strV "Red Shoes", Py.strV "Comfortable running shoes", Py.strV "T", Py.strV "D"] :=
  C3_success_row "m" "k" (fun _ => respGood) (fun _ => false)
    [(Py.strV "Red Shoes", Py.strV "Comfortable running shoes")] 0 (by decide) rfl rfl

/-- C4 witness: one row whose call fails is recorded and exported with
the failure marker in both target fields. -/
theorem C4_failure_row_witness :
    ((controllerLoop "m" "k" (fun _ => HttpOutcome.requestError) (fun _ => false)
        [(Py.strV "Blue Bag", Py.strV "Leather handbag")] 0 [] 0 0).output_data).getD 0 dummyRow =
      ⟨Py.strV "Blue Bag", Py.strV "Leather handbag",
        Py.strV failureMarker, Py.strV failureMarker⟩
    ∧ (exportDF ((controllerLoop "m" "k" (fun _ => HttpOutcome.requestError) (fun _ => false)
        [(Py.strV "Blue Bag", Py.strV "Leather handbag")] 0 [] 0 0).output_data)).rows.getD 0 [] =
      [Py.strV "Blue Bag", Py.strV "Leather handbag",
        Py.strV failureMarker, Py.strV failureMarker] :=
  C4_failure_row "m" "k" (fun _ => HttpOutcome.requestError) (fun _ => false)
    [(Py.strV "Blue Bag", Py.strV "Leather handbag")] 0 (by decide) rfl

/-- C5 witness: a two-row run with no stop ends at progress 2; the same
run whose stop schedule first fires at iteration 1 ends at progress 1. -/
theorem C5_progress_invariant_witness :
    (controllerLoop "m" "k" (fun _ => HttpOutcome.requestError) (fun _ => false)
      [(Py.noneV, Py.noneV), (Py.noneV, Py.noneV)] 0 [] 0 0).progress = 2
    ∧ (controllerLoop "m" "k" (fun _ => HttpOutcome.requestError) (fun i => i != 0)
      [(Py.noneV, Py.noneV), (Py.noneV, Py.noneV)] 0 [] 0 0).progress = 1 := by
  constructor
  · exact (C5_progress_invariant "m" "k" (fun _ => HttpOutcome.requestError) (fun _ => false)
      [(Py.noneV, Py.noneV), (Py.noneV, Py.noneV)]).2.1 (fun i _ => rfl)
  · exact (C5_progress_invariant "m" "k" (fun _ => HttpOutcome.requestError) (fun i => i != 0)
      [(Py.noneV, Py.noneV), (Py.noneV, Py.noneV)]).2.2 1 (by decide)
      (fun i hi => by
        have h0 : i = 0 := by omega
        simp [h0]) rfl

/-- C6 witness: with the stop flag already set at index 0, a started
pass makes no call, appends nothing, and resets started to false. -/
theorem C6_stop_flag_and_reset_witness :
    (processFile ⟨["Meta Title", "Meta Description"], [[Py.strV "a", Py.strV "b"]]⟩
        ⟨false, true, [], 0⟩ false "m" "k" (fun _ => HttpOutcome.requestError)
        (fun _ => true)).state.translation_started = false
    ∧ (processFile ⟨["Meta Title", "Meta Description"], [[Py.strV "a", Py.strV "b"]]⟩
        ⟨false, true, [], 0⟩ false "m" "k" (fun _ => HttpOutcome.requestError)
        (fun _ => true)).calls ≤ 0
    ∧ (processFile ⟨["Meta Title", "Meta Description"], [[Py.strV "a", Py.strV "b"]]⟩
        ⟨false, true, [], 0⟩ false "m" "k" (fun _ => HttpOutcome.requestError)
        (fun _ => true)).state.output_data.length ≤
        (SessionState.output_data ⟨false, true, [], 0⟩).length + 0 := by
  have h := C6_stop_flag_and_reset ⟨["Meta Title", "Meta Description"], [[Py.strV "a", Py.strV "b"]]⟩
    ⟨false, true, [], 0⟩ false "m" "k" (fun _ => HttpOutcome.requestError)
    (fun _ => true) (by decide) (by decide) rfl
  exact ⟨h.1, (h.2 0 (fun i j _ _ => rfl) rfl).1, (h.2 0 (fun i j _ _ => rfl) rfl).2⟩

/-- C7 witness: pressing start wipes a previous run's results and
progress and arms a fresh run. -/
theorem C7_start_transition_witness :
    processFile ⟨["Meta Title", "Meta Description"], []⟩
      ⟨true, false, [dummyRow], 5⟩ true "m" "k"
      (fun _ => HttpOutcome.requestError) (fun _ => false) =
      ⟨⟨false, true, [], 0⟩, 0, none⟩ :=
  C7_start_transition _ _ _ _ _ _ (by decide) (by decide) rfl

/-- C8 witness: a one-row results sequence exports the four columns and
its single row. -/
theorem C8_export_shape_witness :
    (exportDF [⟨Py.strV "a", Py.strV "b", Py.strV "c", Py.strV "d"⟩]).columns = exportCols
    ∧ (exportDF [⟨Py.strV "a", Py.strV "b", Py.strV "c", Py.strV "d"⟩]).rows =
      [[Py.strV "a", Py.strV "b", Py.strV "c", Py.strV "d"]] := by
  have h := (C8_export_shape [⟨Py.strV "a", Py.strV "b", Py.strV "c", Py.strV "d"⟩]).1
    (by simp)
  exact ⟨h.1, h.2⟩

/-- C9 witness: a concrete one-row export parses back to itself with
the four columns. -/
theorem C9_round_trip_witness :
    readTable (convert_df (exportDF [⟨Py.strV "e", Py.strV "f", Py.strV "g", Py.strV "h"⟩])) =
      exportDF [⟨Py.strV "e", Py.strV "f", Py.strV "g", Py.strV "h"⟩]
    ∧ (exportDF [⟨Py.strV "e", Py.strV "f", Py.strV "g", Py.strV "h"⟩]).columns = exportCols := by
  have h := C9_round_trip [⟨Py.strV "e", Py.strV "f", Py.strV "g", Py.strV "h"⟩]
  exact ⟨h.1, (h.2 (by simp)).1⟩

/-- C10 witness: a run whose reply maps 'title' to null records the row
as a full failure although the description came back translated. -/
theorem C10_half_none_full_failure_witness :
    ((controllerLoop "m" "k" (fun _ => respHalf) (fun _ => false)
        [(Py.strV "t1", Py.strV "d1")] 0 [] 0 0).output_data).getD 0 dummyRow =
      ⟨Py.strV "t1", Py.strV "d1", Py.strV failureMarker, Py.strV failureMarker⟩
    ∧ translate_meta_tags (Py.strV "t") (Py.strV "d") "m" "k" respHalf =
      (Py.noneV, Py.strV "x") := by
  have h := C10_half_none_full_failure "m" "k" (fun _ => respHalf) (fun _ => false)
    [(Py.strV "t1", Py.strV "d1")] 0 (by decide) (by decide)
  exact ⟨h.1, h.2 (Py.strV "t") (Py.strV "d") "m" "k"⟩

end MetaTag
